import Mathlib

/-!
Shallow embedding of the smart-youtube-bot repository: the quota ledger
(`QuotaManager`), the reply throttle (`RateLimiter`), the chat-context and
mood tracking of `SmartYouTubeChatBot`, and the message-polling loop with
its error handling.  Times are milliseconds since the epoch, modelled as
`Nat`.  Side effects of the poll loop (timers, farewell message, interval
cancellation) are reified as an explicit `Effect` trace.
-/

namespace YTBot

/-! ### Constants (src/config/constants.js) -/

def DAILY_QUOTA_LIMIT : Nat := 10000

def SAFE_QUOTA_LIMIT : Nat := 9000

/-- YouTube API operation kinds with a fixed weighted cost; `OTHER` stands
for any operation type missing from the `COSTS` table (the source falls
back to cost 1 via the `|| 1` default). -/
inductive OpType
  | SEARCH
  | VIDEO_LIST
  | CHAT_LIST
  | CHAT_INSERT
  | OTHER
deriving DecidableEq, Repr

def cost : OpType → Nat
  | .SEARCH => 100
  | .VIDEO_LIST => 1
  | .CHAT_LIST => 5
  | .CHAT_INSERT => 50
  | .OTHER => 1

def MIN_POLL_INTERVAL : Nat := 12000

def MAX_BACKOFF : Nat := 300000

def msPerDay : Nat := 86400000

def msPerHour : Nat := 3600000

/-- `slice(-n)`: the last `n` elements of a list. -/
def lastN (n : Nat) (l : List α) : List α := l.drop (l.length - n)

/-- The source caps a list only once its length passes `n`:
`if (l.length > n) l = l.slice(-n)`. -/
def capList (n : Nat) (l : List α) : List α :=
  if n < l.length then lastN n l else l

/-! ### QuotaManager (src/utils/quotaManager.js) -/

structure QuotaEntry where
  timestamp : Nat
  operation : OpType
  entryCost : Nat
  success : Bool
deriving DecidableEq, Repr

structure QuotaState where
  dailyQuotaUsed : Nat
  quotaResetTime : Nat
  quotaHistory : List QuotaEntry
deriving DecidableEq, Repr

/-- Next local-midnight boundary strictly after `now`; local midnights are
modelled as the multiples of `msPerDay`. -/
def getNextQuotaReset (now : Nat) : Nat := (now / msPerDay + 1) * msPerDay

def checkQuotaReset (now : Nat) (q : QuotaState) : QuotaState :=
  if q.quotaResetTime ≤ now then
    { dailyQuotaUsed := 0
      quotaResetTime := getNextQuotaReset now
      quotaHistory := [] }
  else q

/-- `canMakeApiCall` first runs the reset check, then admits the operation
iff the projected usage stays within `SAFE_QUOTA_LIMIT`.  Returns the
verdict together with the (possibly reset) ledger. -/
def canMakeApiCall (op : OpType) (now : Nat) (q : QuotaState) : Bool × QuotaState :=
  let q := checkQuotaReset now q
  if SAFE_QUOTA_LIMIT < q.dailyQuotaUsed + cost op then (false, q) else (true, q)

/-- `trackApiCall` charges the ledger on success and appends a history
entry (zero-cost on failure); it performs no reset check. -/
def trackApiCall (op : OpType) (success : Bool) (now : Nat) (q : QuotaState) : QuotaState :=
  if success then
    { q with
        dailyQuotaUsed := q.dailyQuotaUsed + cost op
        quotaHistory := capList 100 (q.quotaHistory ++ [⟨now, op, cost op, true⟩]) }
  else
    { q with
        quotaHistory := capList 100 (q.quotaHistory ++ [⟨now, op, 0, false⟩]) }

/-- Ledger state built by the `QuotaManager` constructor at time `now`. -/
def initialQuota (now : Nat) : QuotaState :=
  { dailyQuotaUsed := 0
    quotaResetTime := getNextQuotaReset now
    quotaHistory := [] }

/-- One client interaction with the ledger: a bare admission check, an
admission check whose operation is performed (and recorded) only when the
check returns true, or the record of a failed call. -/
inductive QAction
  | admitOnly (op : OpType) (t : Nat)
  | admitRecord (op : OpType) (tAdmit tRecord : Nat)
  | recordFail (op : OpType) (t : Nat)
deriving DecidableEq, Repr

def qStep (q : QuotaState) : QAction → QuotaState
  | .admitOnly op t => (canMakeApiCall op t q).2
  | .admitRecord op t₁ t₂ =>
      let r := canMakeApiCall op t₁ q
      if r.1 then trackApiCall op true t₂ r.2 else r.2
  | .recordFail op t => trackApiCall op false t q

def runQuota (q : QuotaState) (acts : List QAction) : QuotaState :=
  acts.foldl qStep q

/-! ### RateLimiter (src/utils/rateLimiter.js) -/

structure RLConfig where
  maxResponsesPerHour : Nat
  globalCooldown : Nat
  userCooldown : Nat
deriving DecidableEq, Repr

/-- Defaults from the constructor / `config.getRateLimits()`. -/
def defaultRateLimits : RLConfig :=
  { maxResponsesPerHour := 30, globalCooldown := 8000, userCooldown := 30000 }

/-- `lastGlobalResponse` starts at 0; `userResponses` is a JS `Map`
(insertion-ordered association list); `hourlyResponses` the reply
timestamps. -/
structure RLState where
  lastGlobalResponse : Nat
  userResponses : List (String × Nat)
  hourlyResponses : List Nat
deriving DecidableEq, Repr

def rlInit : RLState :=
  { lastGlobalResponse := 0, userResponses := [], hourlyResponses := [] }

def mapGet (m : List (String × Nat)) (k : String) : Option Nat :=
  (m.find? (fun p => p.1 == k)).map (fun p => p.2)

def mapSet (m : List (String × Nat)) (k : String) (v : Nat) : List (String × Nat) :=
  if m.any (fun p => p.1 == k) then
    m.map (fun p => if p.1 == k then (k, v) else p)
  else m ++ [(k, v)]

/-- Timestamps within the trailing hour.  The source condition
`time > now - 3600000` is over JS numbers; it is rearranged to
`now < time + 3600000` so that truncated `Nat` subtraction cannot diverge
from it. -/
def pruneHour (now : Nat) (l : List Nat) : List Nat :=
  l.filter (fun time => now < time + msPerHour)

structure RLResult where
  allowed : Bool
  reason : Option String
deriving DecidableEq, Repr

/-- `getHourlyResponseCount` prunes the stored list in place and returns
its length. -/
def getHourlyResponseCount (now : Nat) (s : RLState) : Nat × RLState :=
  let pruned := pruneHour now s.hourlyResponses
  (pruned.length, { s with hourlyResponses := pruned })

/-- `canRespond(userId)`: global cooldown, then hourly cap, then
per-user cooldown (the source's `lastUserResponse &&` guard makes a
stored 0 behave like a missing entry). -/
def canRespond (cfg : RLConfig) (userId : String) (now : Nat) (s : RLState) :
    RLResult × RLState :=
  if now - s.lastGlobalResponse < cfg.globalCooldown then
    ({ allowed := false, reason := some "global_cooldown" }, s)
  else
    let hc := getHourlyResponseCount now s
    let s := hc.2
    if cfg.maxResponsesPerHour ≤ hc.1 then
      ({ allowed := false, reason := some "hourly_limit" }, s)
    else
      match mapGet s.userResponses userId with
      | some last =>
          if 0 < last ∧ now - last < cfg.userCooldown then
            ({ allowed := false, reason := some "user_cooldown" }, s)
          else ({ allowed := true, reason := none }, s)
      | none => ({ allowed := true, reason := none }, s)

def recordResponse (userId : String) (now : Nat) (s : RLState) : RLState :=
  { lastGlobalResponse := now
    userResponses := mapSet s.userResponses userId now
    hourlyResponses := s.hourlyResponses ++ [now] }

/-! ### Chat context and mood (SmartYouTubeChatBot) -/

inductive Sentiment
  | positive
  | negative
  | neutral
deriving DecidableEq, Repr

/-- `CHAT_MOODS` from src/config/constants.js — all five declared members. -/
inductive Mood
  | neutral
  | excited
  | frustrated
  | supportive
  | hyped
deriving DecidableEq, Repr

structure HistoryMsg where
  timestamp : Nat
  author : String
  sentiment : Sentiment
  intent : String
  gameRelated : Bool
deriving DecidableEq, Repr

structure CtxEvent where
  timestamp : Nat
  eventType : String
deriving DecidableEq, Repr

structure Context where
  currentGame : Option String
  gameState : String
  chatMood : Mood
  streamerMood : Mood
  messageHistory : List HistoryMsg
  topicHistory : List String
  recentEvents : List CtxEvent
deriving DecidableEq, Repr

def initializeContext : Context :=
  { currentGame := none
    gameState := "unknown"
    chatMood := .neutral
    streamerMood := .neutral
    messageHistory := []
    topicHistory := []
    recentEvents := [] }

/-- `updateChatMood(sentiment)`: recomputes `chatMood` from the sentiments
of the last 10 entries of `messageHistory`; the `sentiment` argument is
ignored by the source body. -/
def updateChatMood (ctx : Context) (_sentiment : Sentiment) : Context :=
  let recentSentiments := (lastN 10 ctx.messageHistory).map (fun m => m.sentiment)
  let positiveCount := recentSentiments.countP (fun s => s == Sentiment.positive)
  let negativeCount := recentSentiments.countP (fun s => s == Sentiment.negative)
  if 6 ≤ positiveCount then { ctx with chatMood := .excited }
  else if 6 ≤ negativeCount then { ctx with chatMood := .frustrated }
  else if 4 ≤ positiveCount then { ctx with chatMood := .supportive }
  else { ctx with chatMood := .neutral }

/-- Payload of an `updateContext` event. -/
inductive CtxEventData
  | messageReceived (author : String) (sentiment : Sentiment) (intent : String)
      (gameRelated : Bool)
  | other (eventType : String)
deriving DecidableEq, Repr

def ctxEventName : CtxEventData → String
  | .messageReceived _ _ _ _ => "messageReceived"
  | .other ty => ty

/-- `updateContext(eventType, data)`: push the event onto `recentEvents`
(50-cap); for a received message, recompute the mood and only then append
to `messageHistory` (100-cap). -/
def updateContext (t : Nat) (e : CtxEventData) (ctx : Context) : Context :=
  let ctx := { ctx with recentEvents := capList 50 (ctx.recentEvents ++ [⟨t, ctxEventName e⟩]) }
  match e with
  | .messageReceived author sentiment intent gameRelated =>
      let c := updateChatMood ctx sentiment
      { c with
          messageHistory :=
            capList 100 (c.messageHistory ++ [⟨t, author, sentiment, intent, gameRelated⟩]) }
  | .other _ => ctx

/-- Context part of `cleanup()` on stream end. -/
def cleanupContextReset (ctx : Context) : Context :=
  { ctx with currentGame := none, gameState := "unknown", chatMood := .neutral }

/-- Lifecycle operations that can touch the context. -/
inductive CtxOp
  | event (t : Nat) (e : CtxEventData)
  | cleanupStream
deriving DecidableEq, Repr

def ctxStep (ctx : Context) : CtxOp → Context
  | .event t e => updateContext t e ctx
  | .cleanupStream => cleanupContextReset ctx

def runContext (ops : List CtxOp) : Context :=
  ops.foldl ctxStep initializeContext

/-- Feed `n` messages of one sentiment through `updateContext`,
timestamps 0, 1, …. -/
def feedSentiments (n : Nat) (s : Sentiment) : Context :=
  (List.range n).foldl
    (fun c k => updateContext k (.messageReceived "user" s "statement" false) c)
    initializeContext

/-! ### Orchestrator polling loop (SmartYouTubeChatBot.pollMessages) -/

/-- Observable side effects of one poll cycle, in program order. -/
inductive Effect
  | schedulePoll (delayMs : Nat)
  | clearIntervals
  | farewell
  | stopWebServer
  | chatListApiCall
  | emitStreamEnded
deriving DecidableEq, Repr

structure BotState where
  isRunning : Bool
  isMonitoring : Bool
  videoId : Option String
  liveChatId : Option String
  nextPageToken : Option String
  consecutiveErrors : Nat
  maxConsecutiveErrors : Nat
  intervalsActive : Bool
  oauthReady : Bool
  quota : QuotaState
deriving DecidableEq, Repr

/-- Synchronous prefix of `gracefulShutdown()`: stops the loop flags,
clears the monitoring intervals, then attempts the farewell message
(when a chat is attached and OAuth tokens allow sending) and stops the
web server. -/
def gracefulShutdown (s : BotState) : BotState × List Effect :=
  let s := { s with isRunning := false, isMonitoring := false, intervalsActive := false }
  (s, [.clearIntervals] ++
      (if s.liveChatId.isSome && s.oauthReady then [.farewell] else []) ++
      [.stopWebServer])

/-- `handleError`: increment the error counter; at the fatal ceiling,
stop the bot. -/
def handleError (s : BotState) : BotState × List Effect :=
  let s := { s with consecutiveErrors := s.consecutiveErrors + 1 }
  if s.maxConsecutiveErrors ≤ s.consecutiveErrors then gracefulShutdown s
  else (s, [])

/-- Outcome of the `getChatMessages` transport call for one poll cycle. -/
inductive PollResult
  | ok (messages : Nat) (nextPageToken : Option String) (pollingIntervalMillis : Option Nat)
  | errTransient
  | errStreamEnded
deriving DecidableEq, Repr

/-- `result.pollingIntervalMillis || 15000` (0 is falsy in JS). -/
def pollBase : Option Nat → Nat
  | some 0 => 15000
  | some v => v
  | none => 15000

/-- One execution of `pollMessages` at time `now`, with transport
outcome `r`.  Returns the new state and the emitted effects in order. -/
def pollMessages (now : Nat) (r : PollResult) (s : BotState) : BotState × List Effect :=
  if !s.isRunning || s.liveChatId.isNone then (s, [])
  else
    let gate := canMakeApiCall .CHAT_LIST now s.quota
    let s := { s with quota := gate.2 }
    if !gate.1 then (s, [.schedulePoll 60000])
    else
      match r with
      | .ok _ tok pim =>
          let s := { s with
                      quota := trackApiCall .CHAT_LIST true now s.quota
                      nextPageToken := tok
                      consecutiveErrors := 0 }
          (s, [.chatListApiCall, .schedulePoll (max (pollBase pim) MIN_POLL_INTERVAL)])
      | .errTransient =>
          let s := { s with quota := trackApiCall .CHAT_LIST false now s.quota }
          let he := handleError s
          (he.1, [.chatListApiCall] ++ he.2 ++
                 [.schedulePoll (min (MIN_POLL_INTERVAL * 2 ^ he.1.consecutiveErrors) MAX_BACKOFF)])
      | .errStreamEnded =>
          let s := { s with quota := trackApiCall .CHAT_LIST false now s.quota }
          let he := handleError s
          (he.1, [.chatListApiCall] ++ he.2 ++ [.emitStreamEnded])

/-- A polling state freshly attached to a live chat. -/
def examplePollingState : BotState :=
  { isRunning := true
    isMonitoring := true
    videoId := some "vid"
    liveChatId := some "chat"
    nextPageToken := none
    consecutiveErrors := 0
    maxConsecutiveErrors := 5
    intervalsActive := true
    oauthReady := true
    quota := initialQuota 0 }

/-- State after one transient poll failure. -/
def stepFail (t : Nat) (s : BotState) : BotState :=
  (pollMessages t .errTransient s).1

/-- Polling state after four consecutive transient failures. -/
def afterFourFailures : BotState :=
  stepFail 4 (stepFail 3 (stepFail 2 (stepFail 1 examplePollingState)))

/-- Result of the fifth consecutive transient failure. -/
def afterFifthFailure : BotState × List Effect :=
  pollMessages 5 .errTransient afterFourFailures

/-- Throttle state reached by recording 30 replies at time 7200000. -/
def exampleRLBusy : RLState :=
  (List.replicate 30 7200000).foldl (fun s t => recordResponse "bob" t s) rlInit

/-- A context whose history holds six positive-sentiment messages. -/
def sixPositiveHistory : Context :=
  { initializeContext with
      messageHistory := List.replicate 6 ⟨0, "user", .positive, "statement", false⟩ }

/-- A context whose history holds six negative-sentiment messages. -/
def sixNegativeHistory : Context :=
  { initializeContext with
      messageHistory := List.replicate 6 ⟨0, "user", .negative, "statement", false⟩ }

/-- A ledger close to the safe ceiling (used for admission refusal checks). -/
def nearLimitQuota : QuotaState :=
  { dailyQuotaUsed := 8960, quotaResetTime := msPerDay, quotaHistory := [] }

/-! ## Theorems -/

/-! ### Quota ledger lemmas -/

theorem checkQuotaReset_used_le (now : Nat) (q : QuotaState)
    (h : q.dailyQuotaUsed ≤ SAFE_QUOTA_LIMIT) :
    (checkQuotaReset now q).dailyQuotaUsed ≤ SAFE_QUOTA_LIMIT := by
  unfold checkQuotaReset
  split
  · simp [SAFE_QUOTA_LIMIT]
  · exact h

theorem canMakeApiCall_snd (op : OpType) (now : Nat) (q : QuotaState) :
    (canMakeApiCall op now q).2 = checkQuotaReset now q := by
  show (if SAFE_QUOTA_LIMIT < (checkQuotaReset now q).dailyQuotaUsed + cost op then
          ((false : Bool), checkQuotaReset now q)
        else (true, checkQuotaReset now q)).2 = checkQuotaReset now q
  split <;> rfl

theorem canMakeApiCall_fst_true (op : OpType) (now : Nat) (q : QuotaState) :
    (canMakeApiCall op now q).1 = true ↔
      (checkQuotaReset now q).dailyQuotaUsed + cost op ≤ SAFE_QUOTA_LIMIT := by
  show (if SAFE_QUOTA_LIMIT < (checkQuotaReset now q).dailyQuotaUsed + cost op then
          ((false : Bool), checkQuotaReset now q)
        else (true, checkQuotaReset now q)).1 = true ↔
      (checkQuotaReset now q).dailyQuotaUsed + cost op ≤ SAFE_QUOTA_LIMIT
  split
  · next hlt => simp; omega
  · next hge => simp; omega

theorem trackApiCall_true_used (op : OpType) (now : Nat) (q : QuotaState) :
    (trackApiCall op true now q).dailyQuotaUsed = q.dailyQuotaUsed + cost op := by
  simp [trackApiCall]

theorem trackApiCall_false_used (op : OpType) (now : Nat) (q : QuotaState) :
    (trackApiCall op false now q).dailyQuotaUsed = q.dailyQuotaUsed := by
  simp [trackApiCall]

theorem trackApiCall_resetTime (op : OpType) (b : Bool) (now : Nat) (q : QuotaState) :
    (trackApiCall op b now q).quotaResetTime = q.quotaResetTime := by
  unfold trackApiCall
  split <;> rfl

theorem qStep_used_le (q : QuotaState) (a : QAction)
    (h : q.dailyQuotaUsed ≤ SAFE_QUOTA_LIMIT) :
    (qStep q a).dailyQuotaUsed ≤ SAFE_QUOTA_LIMIT := by
  cases a with
  | admitOnly op t =>
      show (canMakeApiCall op t q).2.dailyQuotaUsed ≤ SAFE_QUOTA_LIMIT
      rw [canMakeApiCall_snd]
      exact checkQuotaReset_used_le t q h
  | admitRecord op t₁ t₂ =>
      show (if (canMakeApiCall op t₁ q).1 then
              trackApiCall op true t₂ (canMakeApiCall op t₁ q).2
            else (canMakeApiCall op t₁ q).2).dailyQuotaUsed ≤ SAFE_QUOTA_LIMIT
      by_cases hb : (canMakeApiCall op t₁ q).1 = true
      · rw [if_pos hb, trackApiCall_true_used, canMakeApiCall_snd]
        exact (canMakeApiCall_fst_true op t₁ q).mp hb
      · rw [if_neg hb, canMakeApiCall_snd]
        exact checkQuotaReset_used_le t₁ q h
  | recordFail op t =>
      show (trackApiCall op false t q).dailyQuotaUsed ≤ SAFE_QUOTA_LIMIT
      rw [trackApiCall_false_used]
      exact h

theorem runQuota_used_le (acts : List QAction) (q : QuotaState)
    (h : q.dailyQuotaUsed ≤ SAFE_QUOTA_LIMIT) :
    (runQuota q acts).dailyQuotaUsed ≤ SAFE_QUOTA_LIMIT := by
  induction acts generalizing q with
  | nil => exact h
  | cons a rest ih => exact ih (qStep q a) (qStep_used_le q a h)

/-- C1: for every sequence of admission checks and records in which each
successful record is guarded by an admission check of the same operation
kind returning true, the ledger counter `dailyQuotaUsed` never exceeds
`SAFE_QUOTA_LIMIT` (9000); and `canMakeApiCall` returns false whenever the
(reset-adjusted) counter plus the operation's weighted cost would exceed
the safe ceiling, so refusal happens before the overrun. -/
theorem C1_quota_admission_invariant :
    (∀ t0 acts, (runQuota (initialQuota t0) acts).dailyQuotaUsed ≤ SAFE_QUOTA_LIMIT) ∧
    (∀ q op t, SAFE_QUOTA_LIMIT < (checkQuotaReset t q).dailyQuotaUsed + cost op →
      (canMakeApiCall op t q).1 = false) := by
  constructor
  · intro t0 acts
    exact runQuota_used_le acts (initialQuota t0) (by simp [initialQuota])
  · intro q op t h
    have := (canMakeApiCall_fst_true op t q).not.mpr (by omega)
    simpa using this

/-- C1 witness: a concrete admitted-and-recorded trace stays within the
ceiling, and a concrete near-limit ledger refuses a costly call. -/
theorem C1_quota_admission_invariant_witness :
    (runQuota (initialQuota 0)
        [.admitRecord .SEARCH 5 6, .admitRecord .CHAT_INSERT 7 8,
         .recordFail .CHAT_LIST 9]).dailyQuotaUsed ≤ SAFE_QUOTA_LIMIT ∧
    (canMakeApiCall .CHAT_INSERT 10 nearLimitQuota).1 = false :=
  ⟨C1_quota_admission_invariant.1 0 _,
   C1_quota_admission_invariant.2 nearLimitQuota .CHAT_INSERT 10 (by decide)⟩

/-- C3 counterexample: a successful record at time 2000, at or past the
reset boundary 1000, charges the stale ledger (500 becomes 505) and leaves
`quotaResetTime` unchanged, instead of charging a freshly zeroed ledger
(which would read `cost CHAT_LIST = 5`). -/
theorem C3_reset_counterexample :
    ((⟨500, 1000, []⟩ : QuotaState).quotaResetTime ≤ 2000) ∧
    (trackApiCall .CHAT_LIST true 2000 (⟨500, 1000, []⟩ : QuotaState)).dailyQuotaUsed = 505 ∧
    (trackApiCall .CHAT_LIST true 2000 (⟨500, 1000, []⟩ : QuotaState)).quotaResetTime = 1000 ∧
    (505 : Nat) ≠ cost .CHAT_LIST := by decide

/-- C3 (amended): only `canMakeApiCall` performs the self-healing reset —
when invoked at or past `quotaResetTime` it evaluates the call against a
freshly zeroed ledger with `quotaResetTime` advanced to the next midnight;
`trackApiCall` performs no reset check: it leaves `quotaResetTime`
unchanged and charges the current ledger. -/
theorem C3_self_healing_amended :
    (∀ q op t, q.quotaResetTime ≤ t →
        canMakeApiCall op t q =
          (decide (cost op ≤ SAFE_QUOTA_LIMIT), initialQuota t)) ∧
    (∀ q op b t, (trackApiCall op b t q).quotaResetTime = q.quotaResetTime) ∧
    (∀ q op t, (trackApiCall op true t q).dailyQuotaUsed = q.dailyQuotaUsed + cost op) := by
  refine ⟨?_, fun q op b t => trackApiCall_resetTime op b t q,
          fun q op t => trackApiCall_true_used op t q⟩
  intro q op t h
  have hreset : checkQuotaReset t q = initialQuota t := by
    unfold checkQuotaReset initialQuota
    rw [if_pos h]
  show (if SAFE_QUOTA_LIMIT < (checkQuotaReset t q).dailyQuotaUsed + cost op then
          ((false : Bool), checkQuotaReset t q)
        else (true, checkQuotaReset t q)) =
      (decide (cost op ≤ SAFE_QUOTA_LIMIT), initialQuota t)
  rw [hreset]
  split
  · next hgt =>
      have hno : ¬ cost op ≤ SAFE_QUOTA_LIMIT := by
        simp [initialQuota] at hgt
        omega
      simp [hno]
  · next hle =>
      have hyes : cost op ≤ SAFE_QUOTA_LIMIT := by
        simp [initialQuota] at hle
        omega
      simp [hyes]

/-- C3 witness: the amended theorem applied at a concrete stale ledger. -/
theorem C3_self_healing_amended_witness :
    ((⟨500, 1000, []⟩ : QuotaState).quotaResetTime ≤ 2000) ∧
    canMakeApiCall .CHAT_LIST 2000 (⟨500, 1000, []⟩ : QuotaState) =
      (decide (cost .CHAT_LIST ≤ SAFE_QUOTA_LIMIT), initialQuota 2000) :=
  ⟨by decide, C3_self_healing_amended.1 ⟨500, 1000, []⟩ .CHAT_LIST 2000 (by decide)⟩

/-! ### Context and mood lemmas -/

theorem length_lastN_le (n : Nat) (l : List α) : (lastN n l).length ≤ n := by
  simp [lastN]
  omega

theorem sentiment_countP_add_le (l : List Sentiment) :
    l.countP (fun x => x == Sentiment.positive) + l.countP (fun x => x == Sentiment.negative)
      ≤ l.length := by
  induction l with
  | nil => simp
  | cons h t ih => cases h <;> simp [List.countP_cons] <;> omega

theorem updateChatMood_chatMood (ctx : Context) (s : Sentiment) :
    (updateChatMood ctx s).chatMood =
      (if 6 ≤ ((lastN 10 ctx.messageHistory).map (fun m => m.sentiment)).countP
            (fun x => x == Sentiment.positive) then Mood.excited
       else if 6 ≤ ((lastN 10 ctx.messageHistory).map (fun m => m.sentiment)).countP
            (fun x => x == Sentiment.negative) then Mood.frustrated
       else if 4 ≤ ((lastN 10 ctx.messageHistory).map (fun m => m.sentiment)).countP
            (fun x => x == Sentiment.positive) then Mood.supportive
       else Mood.neutral) := by
  simp only [updateChatMood]
  repeat' split
  all_goals rfl

/-- The mood written by a `messageReceived` event is computed from
`messageHistory` as it stands before the new message is appended. -/
theorem updateContext_message_chatMood (ctx : Context) (t : Nat) (a : String) (s : Sentiment)
    (i : String) (g : Bool) :
    (updateContext t (.messageReceived a s i g) ctx).chatMood =
      (updateChatMood
        { ctx with recentEvents := capList 50 (ctx.recentEvents ++ [⟨t, "messageReceived"⟩]) }
        s).chatMood := rfl

/-- Combined form: the freshly written mood as a case split over the
pre-append history. -/
theorem updateContext_message_mood_ite (ctx : Context) (t : Nat) (a : String) (s : Sentiment)
    (i : String) (g : Bool) :
    (updateContext t (.messageReceived a s i g) ctx).chatMood =
      (if 6 ≤ ((lastN 10 ctx.messageHistory).map (fun m => m.sentiment)).countP
            (fun x => x == Sentiment.positive) then Mood.excited
       else if 6 ≤ ((lastN 10 ctx.messageHistory).map (fun m => m.sentiment)).countP
            (fun x => x == Sentiment.negative) then Mood.frustrated
       else if 4 ≤ ((lastN 10 ctx.messageHistory).map (fun m => m.sentiment)).countP
            (fun x => x == Sentiment.positive) then Mood.supportive
       else Mood.neutral) := by
  rw [updateContext_message_chatMood, updateChatMood_chatMood]

/-- C2 counterexample: feeding six positive-sentiment messages into an
empty context leaves `chatMood = supportive`, not `excited` (the mood is
recomputed before the sixth message is appended, over only five positive
entries); six negatives likewise leave `neutral`, not `frustrated`. -/
theorem C2_mood_counterexample :
    (feedSentiments 6 .positive).chatMood = Mood.supportive ∧
    (feedSentiments 6 .positive).chatMood ≠ Mood.excited ∧
    (feedSentiments 6 .negative).chatMood ≠ Mood.frustrated := by decide

/-- C2 (amended): recording a message recomputes `chatMood` from the
sentiment distribution of the most recent 10 entries of `messageHistory`
as it stood before the append — excluding the message just recorded —
with thresholds at least 6 positive yields excited, at least 6 negative
yields frustrated, at least 4 positive yields supportive, otherwise
neutral; and only then appends the message under the 100-entry cap.
Hence 7 positive messages fed into an empty context yield excited, 7
negative yield frustrated, while 6 positive yield only supportive. -/
theorem C2_mood_derivation_amended :
    (∀ ctx t a s i g,
        6 ≤ ((lastN 10 ctx.messageHistory).map (fun m => m.sentiment)).countP
              (fun x => x == Sentiment.positive) →
        (updateContext t (.messageReceived a s i g) ctx).chatMood = Mood.excited) ∧
    (∀ ctx t a s i g,
        6 ≤ ((lastN 10 ctx.messageHistory).map (fun m => m.sentiment)).countP
              (fun x => x == Sentiment.negative) →
        (updateContext t (.messageReceived a s i g) ctx).chatMood = Mood.frustrated) ∧
    (feedSentiments 7 .positive).chatMood = Mood.excited ∧
    (feedSentiments 7 .negative).chatMood = Mood.frustrated ∧
    (feedSentiments 6 .positive).chatMood = Mood.supportive := by
  refine ⟨?_, ?_, by decide, by decide, by decide⟩
  · intro ctx t a s i g h
    rw [updateContext_message_mood_ite, if_pos h]
  · intro ctx t a s i g h
    rw [updateContext_message_mood_ite]
    have h1 := sentiment_countP_add_le ((lastN 10 ctx.messageHistory).map (fun m => m.sentiment))
    have h2 : ((lastN 10 ctx.messageHistory).map (fun m => m.sentiment)).length ≤ 10 := by
      rw [List.length_map]
      exact length_lastN_le 10 ctx.messageHistory
    rw [if_neg (by omega), if_pos h]

/-- C2 witness: the amended theorem applied at contexts already holding
six positive (resp. negative) messages. -/
theorem C2_mood_derivation_amended_witness :
    (6 ≤ ((lastN 10 sixPositiveHistory.messageHistory).map (fun m => m.sentiment)).countP
          (fun x => x == Sentiment.positive)) ∧
    (updateContext 1 (.messageReceived "u" .neutral "s" false) sixPositiveHistory).chatMood
      = Mood.excited ∧
    (6 ≤ ((lastN 10 sixNegativeHistory.messageHistory).map (fun m => m.sentiment)).countP
          (fun x => x == Sentiment.negative)) ∧
    (updateContext 1 (.messageReceived "u" .neutral "s" false) sixNegativeHistory).chatMood
      = Mood.frustrated :=
  ⟨by decide,
   C2_mood_derivation_amended.1 sixPositiveHistory 1 "u" .neutral "s" false (by decide),
   by decide,
   C2_mood_derivation_amended.2.1 sixNegativeHistory 1 "u" .neutral "s" false (by decide)⟩

theorem updateChatMood_ne_hyped (ctx : Context) (s : Sentiment) :
    (updateChatMood ctx s).chatMood ≠ Mood.hyped := by
  rw [updateChatMood_chatMood]
  repeat' split
  all_goals simp

theorem ctxStep_ne_hyped (ctx : Context) (op : CtxOp) (h : ctx.chatMood ≠ Mood.hyped) :
    (ctxStep ctx op).chatMood ≠ Mood.hyped := by
  cases op with
  | event t e =>
      cases e with
      | messageReceived a s i g =>
          show (updateContext t (.messageReceived a s i g) ctx).chatMood ≠ Mood.hyped
          rw [updateContext_message_chatMood]
          exact updateChatMood_ne_hyped _ s
      | other ty => exact h
  | cleanupStream =>
      show Mood.neutral ≠ Mood.hyped
      decide

theorem foldl_ctxStep_ne_hyped (ops : List CtxOp) (ctx : Context)
    (h : ctx.chatMood ≠ Mood.hyped) :
    (ops.foldl ctxStep ctx).chatMood ≠ Mood.hyped := by
  induction ops generalizing ctx with
  | nil => exact h
  | cons o rest ih => exact ih (ctxStep ctx o) (ctxStep_ne_hyped ctx o h)

/-- C10: although `hyped` is a declared member of the `Mood` enumeration,
no sequence of lifecycle operations (message records, other events,
stream-end cleanup) starting from the initial context can make `chatMood`
equal to `hyped`. -/
theorem C10_hyped_unreachable (ops : List CtxOp) :
    (runContext ops).chatMood ≠ Mood.hyped :=
  foldl_ctxStep_ne_hyped ops initializeContext (by decide)

/-! ### Rate limiter lemmas -/

theorem pruneHour_idem (now : Nat) (l : List Nat) :
    pruneHour now (pruneHour now l) = pruneHour now l := by
  simp [pruneHour, List.filter_filter]

theorem pruneHour_sublist (now : Nat) (l : List Nat) :
    (pruneHour now l).Sublist l :=
  List.filter_sublist l

/-- C9: the throttle check is a pure gate — `canRespond` never changes
`lastGlobalResponse` or the per-author map, only ever shrinks the hourly
list (by pruning entries outside the trailing hour), and repeating the
check on its own output state at the same instant returns the identical
result; only `recordResponse` starts cooldowns. -/
theorem C9_canRespond_pure_gate (cfg : RLConfig) (uid : String) (now : Nat) (s : RLState) :
    ((canRespond cfg uid now s).2.lastGlobalResponse = s.lastGlobalResponse) ∧
    ((canRespond cfg uid now s).2.userResponses = s.userResponses) ∧
    ((canRespond cfg uid now s).2.hourlyResponses.Sublist s.hourlyResponses) ∧
    (canRespond cfg uid now (canRespond cfg uid now s).2 = canRespond cfg uid now s) := by
  unfold canRespond getHourlyResponseCount
  by_cases h1 : now - s.lastGlobalResponse < cfg.globalCooldown
  · simp [h1]
  · by_cases h2 : cfg.maxResponsesPerHour ≤ (pruneHour now s.hourlyResponses).length
    · simp [h1, h2, pruneHour_idem, pruneHour_sublist]
    · cases hm : mapGet s.userResponses uid with
      | some last =>
          by_cases h3 : 0 < last ∧ now - last < cfg.userCooldown
          · simp [h1, h2, h3, hm, pruneHour_idem, pruneHour_sublist]
          · simp [h1, h2, h3, hm, pruneHour_idem, pruneHour_sublist]
      | none =>
          simp [h1, h2, hm, pruneHour_idem, pruneHour_sublist]

/-- C6 counterexample: after 30 replies recorded at time 7200000 (all
inside the trailing hour), a check made 5000 ms later is refused with
reason `global_cooldown`, not `hourly_limit` — the global cooldown is
tested first. -/
theorem C6_hourly_counterexample :
    ((pruneHour 7205000 exampleRLBusy.hourlyResponses).length = 30) ∧
    (canRespond defaultRateLimits "alice" 7205000 exampleRLBusy).1 =
      { allowed := false, reason := some "global_cooldown" } ∧
    (some "global_cooldown" : Option String) ≠ some "hourly_limit" := by decide

/-- C6 (amended): with the cap configured at 30, once at least 30 recorded
replies lie within the trailing 3600-second window of the query instant,
a `canRespond` check made at least `globalCooldown` (8000 ms) after the
last recorded reply returns `allowed = false` with reason `hourly_limit`
for every author; the window is recomputed relative to the query instant
on every check. -/
theorem C6_hourly_limit_amended (s : RLState) (uid : String) (now : Nat)
    (hcool : s.lastGlobalResponse + defaultRateLimits.globalCooldown ≤ now)
    (hcount : defaultRateLimits.maxResponsesPerHour ≤
      (pruneHour now s.hourlyResponses).length) :
    (canRespond defaultRateLimits uid now s).1 =
      { allowed := false, reason := some "hourly_limit" } := by
  unfold canRespond getHourlyResponseCount
  have h1 : ¬ (now - s.lastGlobalResponse < defaultRateLimits.globalCooldown) := by
    simp only [defaultRateLimits] at hcool ⊢
    omega
  simp [h1, hcount]

/-- C6 witness: the amended theorem applied to the state reached by 30
recorded replies, checked 10000 ms after the last one. -/
theorem C6_hourly_limit_amended_witness :
    (exampleRLBusy.lastGlobalResponse + defaultRateLimits.globalCooldown ≤ 7210000) ∧
    (defaultRateLimits.maxResponsesPerHour ≤
      (pruneHour 7210000 exampleRLBusy.hourlyResponses).length) ∧
    (canRespond defaultRateLimits "alice" 7210000 exampleRLBusy).1 =
      { allowed := false, reason := some "hourly_limit" } :=
  ⟨by decide, by decide,
   C6_hourly_limit_amended exampleRLBusy "alice" 7210000 (by decide) (by decide)⟩

/-- C7 counterexample: two `canRespond` checks 5000 ms apart with no
`recordResponse` in between both return `allowed = true` — a check that
grants permission does not itself start the global cooldown. -/
theorem C7_cooldown_counterexample :
    ((canRespond defaultRateLimits "a" 10000000 rlInit).1.allowed = true) ∧
    ((canRespond defaultRateLimits "b" 10005000
        (canRespond defaultRateLimits "a" 10000000 rlInit).2).1.allowed = true) := by decide

/-- C7 (amended): with `globalCooldown = 8000` ms, if a response is
recorded (for any author) at the instant of the first check, then a
`canRespond` call 5000 ms later is refused with reason `global_cooldown`
for every author — so the two calls cannot both be allowed. -/
theorem C7_cooldown_amended (s : RLState) (uid₁ uid₂ : String) (t : Nat) :
    (canRespond defaultRateLimits uid₂ (t + 5000) (recordResponse uid₁ t s)).1 =
      { allowed := false, reason := some "global_cooldown" } := by
  have h1 : (t + 5000) - (recordResponse uid₁ t s).lastGlobalResponse <
      defaultRateLimits.globalCooldown := by
    show (t + 5000) - t < 8000
    omega
  unfold canRespond
  rw [if_pos h1]

/-! ### Orchestrator lemmas -/

theorem handleError_errors (s : BotState) :
    (handleError s).1.consecutiveErrors = s.consecutiveErrors + 1 := by
  simp only [handleError, gracefulShutdown]
  split <;> rfl

theorem handleError_no_schedulePoll (s : BotState) (d : Nat) :
    Effect.schedulePoll d ∉ (handleError s).2 := by
  simp only [handleError, gracefulShutdown]
  split
  · split <;> simp
  · simp

theorem pollMessages_stopped (s : BotState) (now : Nat) (r : PollResult)
    (h : s.isRunning = false) : pollMessages now r s = (s, []) := by
  simp [pollMessages, h]

theorem pollMessages_transient_eq (s : BotState) (now : Nat)
    (hrun : s.isRunning = true) (hchat : s.liveChatId.isNone = false)
    (hgate : (canMakeApiCall .CHAT_LIST now s.quota).1 = true) :
    pollMessages now .errTransient s =
      ((handleError { s with quota :=
          (trackApiCall .CHAT_LIST false now (canMakeApiCall .CHAT_LIST now s.quota).2) }).1,
       [.chatListApiCall] ++
       (handleError { s with quota :=
          (trackApiCall .CHAT_LIST false now (canMakeApiCall .CHAT_LIST now s.quota).2) }).2 ++
       [.schedulePoll (min (MIN_POLL_INTERVAL * 2 ^
          (handleError { s with quota :=
            (trackApiCall .CHAT_LIST false now
              (canMakeApiCall .CHAT_LIST now s.quota).2) }).1.consecutiveErrors)
          MAX_BACKOFF)]) := by
  simp [pollMessages, hrun, hchat, hgate]

/-- C4 counterexample: in a clean polling state with `consecutiveErrors =
0`, a transient poll failure schedules the retry after 24000 ms =
`min(12000 * 2^1, 300000)`, not after `min(12000 * 2^0, 300000)` = 12000
as the claim states — the counter is incremented before the backoff is
computed. -/
theorem C4_backoff_counterexample :
    examplePollingState.consecutiveErrors = 0 ∧
    (pollMessages 1000 .errTransient examplePollingState).2 =
      [.chatListApiCall, .schedulePoll 24000] ∧
    (24000 : Nat) ≠ min (MIN_POLL_INTERVAL * 2 ^ 0) MAX_BACKOFF := by decide

/-- C4 (amended): when a poll cycle fails with a retryable error while
`consecutiveErrors = n`, `handleError` first increments the counter to
`n + 1` and the next attempt is then scheduled after exactly
`min(minimumPollIntervalMs * 2^(n+1), maxBackoffMs)` (12000 and 300000
respectively) — the freshly incremented counter, not `n`, is the
exponent. -/
theorem C4_backoff_amended (s : BotState) (now : Nat)
    (hrun : s.isRunning = true) (hchat : s.liveChatId.isNone = false)
    (hgate : (canMakeApiCall .CHAT_LIST now s.quota).1 = true) :
    ((pollMessages now .errTransient s).1.consecutiveErrors = s.consecutiveErrors + 1) ∧
    (Effect.schedulePoll (min (MIN_POLL_INTERVAL * 2 ^ (s.consecutiveErrors + 1)) MAX_BACKOFF)
      ∈ (pollMessages now .errTransient s).2) ∧
    (∀ d, Effect.schedulePoll d ∈ (pollMessages now .errTransient s).2 →
      d = min (MIN_POLL_INTERVAL * 2 ^ (s.consecutiveErrors + 1)) MAX_BACKOFF) := by
  rw [pollMessages_transient_eq s now hrun hchat hgate]
  rw [handleError_errors]
  refine ⟨rfl, ?_, ?_⟩
  · simp
  · intro d hd
    rcases List.mem_append.mp hd with h12 | h3
    · rcases List.mem_append.mp h12 with h1 | h2
      · simp at h1
      · exact absurd h2 (handleError_no_schedulePoll _ d)
    · simpa using h3

/-- C4 witness: the amended theorem applied to a clean polling state. -/
theorem C4_backoff_amended_witness :
    (examplePollingState.isRunning = true) ∧
    (examplePollingState.liveChatId.isNone = false) ∧
    ((canMakeApiCall .CHAT_LIST 1000 examplePollingState.quota).1 = true) ∧
    ((pollMessages 1000 .errTransient examplePollingState).1.consecutiveErrors =
      examplePollingState.consecutiveErrors + 1) ∧
    (Effect.schedulePoll
        (min (MIN_POLL_INTERVAL * 2 ^ (examplePollingState.consecutiveErrors + 1)) MAX_BACKOFF)
      ∈ (pollMessages 1000 .errTransient examplePollingState).2) :=
  ⟨by decide, by decide, by decide,
   (C4_backoff_amended examplePollingState 1000 (by decide) (by decide) (by decide)).1,
   (C4_backoff_amended examplePollingState 1000 (by decide) (by decide) (by decide)).2.1⟩

/-- C5: when the quota gate refuses the chat-list operation, the poll
cycle only re-schedules the same poll attempt after a fixed 60000 ms
cooldown — whatever the transport would have returned — leaving the
session identifiers, the running flag and the error counter unchanged,
and performing no API call and no state transition. -/
theorem C5_quota_pause_nonfatal (s : BotState) (now : Nat) (r : PollResult)
    (hrun : s.isRunning = true) (hchat : s.liveChatId.isNone = false)
    (hgate : (canMakeApiCall .CHAT_LIST now s.quota).1 = false) :
    ((pollMessages now r s).1.videoId = s.videoId) ∧
    ((pollMessages now r s).1.liveChatId = s.liveChatId) ∧
    ((pollMessages now r s).1.nextPageToken = s.nextPageToken) ∧
    ((pollMessages now r s).1.isRunning = s.isRunning) ∧
    ((pollMessages now r s).1.consecutiveErrors = s.consecutiveErrors) ∧
    ((pollMessages now r s).2 = [.schedulePoll 60000]) := by
  have key : pollMessages now r s =
      ({ s with quota := (canMakeApiCall .CHAT_LIST now s.quota).2 },
       [.schedulePoll 60000]) := by
    simp [pollMessages, hrun, hchat, hgate]
  rw [key]
  exact ⟨rfl, rfl, rfl, rfl, rfl, rfl⟩

/-- C5 witness: a polling state whose ledger sits at the safe ceiling is
paused for 60000 ms without any other change. -/
theorem C5_quota_pause_nonfatal_witness :
    (({ examplePollingState with
          quota := ⟨9000, msPerDay, []⟩ } : BotState).isRunning = true) ∧
    (({ examplePollingState with
          quota := ⟨9000, msPerDay, []⟩ } : BotState).liveChatId.isNone = false) ∧
    ((canMakeApiCall .CHAT_LIST 1000
        ({ examplePollingState with quota := ⟨9000, msPerDay, []⟩ } : BotState).quota).1
      = false) ∧
    ((pollMessages 1000 .errTransient
        { examplePollingState with quota := ⟨9000, msPerDay, []⟩ }).2
      = [.schedulePoll 60000]) :=
  ⟨by decide, by decide, by decide,
   (C5_quota_pause_nonfatal { examplePollingState with quota := ⟨9000, msPerDay, []⟩ }
      1000 .errTransient (by decide) (by decide) (by decide)).2.2.2.2.2⟩

/-- C8 counterexample: after the fifth consecutive transient failure the
shutdown has begun (`isRunning = false`, intervals cleared), yet the
failing poll cycle still schedules one more retry timer (300000 ms) —
contradicting the claim that no further poll retry is scheduled after
shutdown begins. -/
theorem C8_shutdown_counterexample :
    afterFifthFailure.1.isRunning = false ∧
    afterFifthFailure.1.intervalsActive = false ∧
    Effect.schedulePoll 300000 ∈ afterFifthFailure.2 := by decide

/-- C8 (amended): with the threshold at 5, five consecutive transient
poll failures drive the orchestrator from polling to stopped: the fifth
failure flips `isRunning` and `isMonitoring` off, cancels the monitoring
intervals before the best-effort farewell reply, and — although one last
backoff timer is still scheduled after shutdown begins — any later firing
of that timer performs no poll: the poll entry point returns immediately
with no state change and no effects. -/
theorem C8_five_failures_amended :
    (afterFourFailures.isRunning = true) ∧
    (afterFourFailures.consecutiveErrors = 4) ∧
    (afterFifthFailure.1.isRunning = false) ∧
    (afterFifthFailure.1.isMonitoring = false) ∧
    (afterFifthFailure.1.intervalsActive = false) ∧
    (afterFifthFailure.1.consecutiveErrors = 5) ∧
    (afterFifthFailure.2 =
      [.chatListApiCall, .clearIntervals, .farewell, .stopWebServer, .schedulePoll 300000]) ∧
    (∀ now r, pollMessages now r afterFifthFailure.1 = (afterFifthFailure.1, [])) := by
  refine ⟨by decide, by decide, by decide, by decide, by decide, by decide, by decide, ?_⟩
  intro now r
  exact pollMessages_stopped afterFifthFailure.1 now r (by decide)

end YTBot
